import Mathlib

/-!
Formal model of the FNA3D Vulkan backend (src/FNA3D_Driver_Vulkan.c):
the render-state object caches, the dynamic-buffer allocator with its
discard/overwrite write policy, the descriptor binding tracker, and the
pass/frame engine.  C functions are embedded as pure Lean functions over
explicit state records; native Vulkan calls that can fail are given their
results as `Bool`/`Option` oracle arguments, and the sequence of native
calls a function performs is returned as an explicit event trace.
-/

namespace FNA3D

/-- Value of `sizeof(VkDeviceSize)` on the targeted platforms: `VkDeviceSize`
is `uint64_t`, so `sizeof` is 8 bytes.  `CreateBackingBuffer` uses
`sizeof(previousSize)` and `sizeof(buffer->internalBufferSize)` (not the
values themselves) as allocation/copy sizes. -/
def sizeofVkDeviceSize : Nat := 8

/-! ## stb_ds hash maps

The caches use stb_ds string-free hash maps (`hmgeti`, `hmget`, `hmput`).
They are modelled as association lists with at most one entry per key. -/

/-- Lookup (`hmgeti`/`hmget`): the value stored for `k`, if any. -/
def hmLookup (m : List (Nat × Nat)) (k : Nat) : Option Nat :=
  match m with
  | [] => none
  | (k', v) :: rest => if k' = k then some v else hmLookup rest k

/-- Insertion (`hmput`): replace the entry for `k` if present, else append. -/
def hmPut (m : List (Nat × Nat)) (k : Nat) (v : Nat) : List (Nat × Nat) :=
  match m with
  | [] => [(k, v)]
  | (k', v') :: rest =>
    if k' = k then (k', v) :: rest else (k', v') :: hmPut rest k v

/-! ## Object caches (FetchPipeline / FetchRenderPass / FetchFramebuffer /
FetchSamplerState, FNA3D_Driver_Vulkan.c:2098-2506)

Hash keys (`PipelineHash`, `RenderPassHash`, `StateHash`) and native handles
(`VkPipeline`, `VkRenderPass`, `VkFramebuffer`, `VkSampler`) are opaque to the
cache logic and are modelled as `Nat`.  Each fetch takes the outcome of the
native creation call as an oracle (`none`/`false` = the Vulkan call failed)
and reports whether the creation call was invoked. -/

/-- Cache-relevant state of the renderer for `FetchPipeline`: the pipeline
hash map and the `currentPipelineHash` bookkeeping it updates. -/
structure PipelineCacheState where
  pipelineHashMap : List (Nat × Nat)
  currentPipelineHash : Nat
  deriving DecidableEq

/-- FetchPipeline (FNA3D_Driver_Vulkan.c:2098-2269).  On a cache hit it
records the hash as current and returns the cached pipeline without invoking
creation.  On a miss it invokes `vkCreateGraphicsPipelines` (outcome
`create`); on failure it logs and returns `NULL` (`none`) leaving the cache
and `currentPipelineHash` untouched; on success it inserts the new entry,
records the hash and returns the handle.  Result: (state, returned handle,
whether creation was invoked). -/
def FetchPipeline (s : PipelineCacheState) (hash : Nat) (create : Option Nat) :
    PipelineCacheState × Option Nat × Bool :=
  match hmLookup s.pipelineHashMap hash with
  | some p => ({ s with currentPipelineHash := hash }, some p, false)
  | none =>
    match create with
    | none => (s, none, true)
    | some p =>
      (⟨hmPut s.pipelineHashMap hash p, hash⟩, some p, true)

/-- FetchRenderPass (FNA3D_Driver_Vulkan.c:2271-2394): same cache discipline
as `FetchPipeline` on the render-pass hash map; on creation failure it logs
and returns `NULL` without inserting. -/
def FetchRenderPass (m : List (Nat × Nat)) (hash : Nat) (create : Option Nat) :
    List (Nat × Nat) × Option Nat × Bool :=
  match hmLookup m hash with
  | some r => (m, some r, false)
  | none =>
    match create with
    | none => (m, none, true)
    | some r => (hmPut m hash r, some r, true)

/-- FetchSamplerState (FNA3D_Driver_Vulkan.c:2454-2506): cache discipline on
the sampler-state hash map; on creation failure it logs and returns `0`
(`none`) without inserting. -/
def FetchSamplerState (m : List (Nat × Nat)) (hash : Nat) (create : Option Nat) :
    List (Nat × Nat) × Option Nat × Bool :=
  match hmLookup m hash with
  | some v => (m, some v, false)
  | none =>
    match create with
    | none => (m, none, true)
    | some v => (hmPut m hash v, some v, true)

/-- FetchFramebuffer (FNA3D_Driver_Vulkan.c:2396-2452).  On a miss it calls
`vkCreateFramebuffer` (success flag `createOk`; `created` is the value of the
local `framebuffer` variable afterwards, garbage when the call failed), logs
on failure, and then unconditionally inserts `(hash, framebuffer)` into the
cache and returns it — there is no early return on failure.  Result:
(cache, returned handle, creation invoked, failure logged). -/
def FetchFramebuffer (m : List (Nat × Nat)) (hash : Nat) (createOk : Bool)
    (created : Nat) : List (Nat × Nat) × Nat × Bool × Bool :=
  match hmLookup m hash with
  | some f => (m, f, false, false)
  | none => (hmPut m hash created, created, true, !createOk)

/-- Run of repeated `FetchPipeline` calls.  Each request carries the hash to
fetch and the handle `vkCreateGraphicsPipelines` would produce if invoked
(every creation in the run succeeds).  Returns the final state, the list of
(hash, returned handle) pairs, and the log of hashes for which the creation
function was invoked. -/
def runPipelineFetches (s : PipelineCacheState) :
    List (Nat × Nat) → PipelineCacheState × List (Nat × Option Nat) × List Nat
  | [] => (s, [], [])
  | (k, fresh) :: rest =>
    let step := FetchPipeline s k (some fresh)
    let next := runPipelineFetches step.1 rest
    (next.1, (k, step.2.1) :: next.2.1,
      (if step.2.2 then [k] else []) ++ next.2.2)

/-- Run of repeated `FetchSamplerState` calls, with every creation
succeeding; same bookkeeping as `runPipelineFetches`. -/
def runSamplerFetches (m : List (Nat × Nat)) :
    List (Nat × Nat) → List (Nat × Nat) × List (Nat × Option Nat) × List Nat
  | [] => (m, [], [])
  | (k, fresh) :: rest =>
    let step := FetchSamplerState m k (some fresh)
    let next := runSamplerFetches step.1 rest
    (next.1, (k, step.2.1) :: next.2.1,
      (if step.2.2 then [k] else []) ++ next.2.2)


/-! ## Dynamic buffers and the pass/frame engine

`VulkanBuffer` mirrors the C struct (FNA3D_Driver_Vulkan.c:180-192); the
CPU shadow copy `contents` is a byte map `Nat → Option Nat` where `none`
marks an uninitialised byte, and `contentsAllocSize` records the size of the
`SDL_malloc` allocation behind it.  `Renderer` carries the fields of
`FNAVulkanRenderer` that the buffer/pass/frame functions below read or
write.  Each embedded function returns the list of native calls it performs
(`VkEvent`), and takes the results of fallible native calls as a `VkOracles`
record (`true` = `VK_SUCCESS`). -/

/-- FNA3D_SetDataOptions from the public FNA3D header. -/
inductive SetDataOptions where
  | none
  | discard
  | noOverwrite
  deriving DecidableEq

/-- Byte-addressed CPU memory; `none` is an uninitialised byte. -/
def Mem : Type := Nat → Option Nat

/-- Model of `SDL_memcpy(base + dst, data, len)` where `data` is caller
memory given as a byte list (bytes past the end of the list read as junk 0). -/
def memWriteData (m : Mem) (dst : Nat) (data : List Nat) (len : Nat) : Mem :=
  fun i => if dst ≤ i ∧ i < dst + len then some (data.getD (i - dst) 0) else m i

/-- Model of `SDL_memcpy(base + dst, base + src, len)` within one
allocation. -/
def memMoveWithin (m : Mem) (dst src len : Nat) : Mem :=
  fun i => if dst ≤ i ∧ i < dst + len then m (src + (i - dst)) else m i

/-- Model of `SDL_memcpy(dstBase, srcBase, len)` across two allocations
(both at offset 0). -/
def memCopyAcross (dstm srcm : Mem) (len : Nat) : Mem :=
  fun i => if i < len then srcm i else dstm i

/-- struct VulkanBuffer (FNA3D_Driver_Vulkan.c:180-192).  `handleAllocated`
stands for `handle != NULL`. -/
structure VulkanBuffer where
  handleAllocated : Bool
  contents : Mem
  contentsAllocSize : Nat
  size : Nat
  internalOffset : Nat
  internalBufferSize : Nat
  prevDataLength : Nat
  prevInternalOffset : Nat
  boundThisFrame : Bool

/-- Native calls performed by the embedded functions, in program order. -/
inductive VkEvent where
  | logWarn
  | logError (fn : String)
  | vkCreateBuffer (size : Nat)
  | vkDestroyBuffer
  | memWrite (dst len : Nat)
  | cmdEndRenderPass
  | vkEndCommandBuffer
  | vkAllocateCommandBuffers
  | vkBeginCommandBuffer
  | vkQueueSubmit (cmdCount : Nat)
  | vkQueueWaitIdle
  | vkWaitForFences
  | vkResetFences
  | vkResetCommandPool
  | vkAcquireNextImage
  | fetchRenderPassStep
  | fetchFramebufferStep
  | cmdSetViewport
  | cmdSetScissor
  | cmdSetStencilReference
  | cmdSetBlendConstants
  | cmdSetDepthBias
  | cmdBeginRenderPass
  | cmdClearAttachments
  | cmdPipelineBarrier
  | cmdBlitImage
  | vkQueuePresent
  | updateDescriptorSets (writeCount : Nat)
  deriving DecidableEq

/-- Results of the fallible native calls (`true` = `VK_SUCCESS`);
`imageIndex` is the image index `vkAcquireNextImageKHR` reports on
success. -/
structure VkOracles where
  submitOk : Bool
  waitIdleOk : Bool
  allocOk : Bool
  beginOk : Bool
  endOk : Bool
  waitFencesOk : Bool
  acquireOk : Bool
  imageIndex : Nat
  presentOk : Bool
  deriving DecidableEq

/-- Oracle record in which every native call succeeds. -/
def allOk : VkOracles :=
  ⟨true, true, true, true, true, true, true, 0, true⟩

/-- Fields of FNAVulkanRenderer read or written by the functions below. -/
structure Renderer where
  buffers : List VulkanBuffer
  commandBufferCount : Nat
  commandBufferCapacity : Nat
  renderPassInProgress : Bool
  needNewRenderPass : Bool
  frameInProgress : Bool
  pipelineBoundThisFrame : Bool
  shouldClearColor : Bool
  shouldClearDepth : Bool
  shouldClearStencil : Bool
  currentSwapChainIndex : Nat
  debugMode : Bool

/-- CreateBackingBuffer (FNA3D_Driver_Vulkan.c:1234-1284).  Creates a new
native buffer of `internalBufferSize` bytes and a new shadow allocation; the
C code allocates the shadow with `SDL_malloc(sizeof(buffer->internalBufferSize))`
and, when an old buffer exists, copies forward `sizeof(previousSize)` bytes —
in both places the size of the `VkDeviceSize` type itself (8 bytes), not the
value of the variable, so the `previousSize` argument's value is never used.
The old native buffer is destroyed after the copy. -/
def CreateBackingBuffer (buf : VulkanBuffer) (previousSize : Nat) :
    VulkanBuffer × List VkEvent :=
  let hadOld := buf.handleAllocated
  let freshMem : Mem := fun _ => none
  let newContents :=
    if hadOld then memCopyAcross freshMem buf.contents sizeofVkDeviceSize
    else freshMem
  ({ buf with
      handleAllocated := true
      contents := newContents
      contentsAllocSize := sizeofVkDeviceSize },
   VkEvent.vkCreateBuffer buf.internalBufferSize ::
     (if hadOld then [VkEvent.vkDestroyBuffer] else []))

/-- CreateBuffer (FNA3D_Driver_Vulkan.c:1286-1305): zero a fresh
VulkanBuffer, set `size` and `internalBufferSize`, create the backing buffer
(the C passes -1 as `previousSize`; the value is unused), and link the buffer
into the renderer's list (done by the caller of this model). -/
def CreateBuffer (size : Nat) : VulkanBuffer × List VkEvent :=
  let base : VulkanBuffer :=
    { handleAllocated := false, contents := fun _ => none,
      contentsAllocSize := 0, size := size, internalOffset := 0,
      internalBufferSize := size, prevDataLength := 0,
      prevInternalOffset := 0, boundThisFrame := false }
  CreateBackingBuffer base 0

/-- EndPass (FNA3D_Driver_Vulkan.c:3570-3590): only when a render pass is in
progress and at least one command buffer exists, end the render pass and the
current command buffer (logging if `vkEndCommandBuffer` fails) and clear the
pass-in-progress flag; otherwise do nothing. -/
def EndPass (r : Renderer) (endOk : Bool) : Renderer × List VkEvent :=
  if r.renderPassInProgress ∧ 0 < r.commandBufferCount then
    ({ r with renderPassInProgress := false },
     [VkEvent.cmdEndRenderPass, VkEvent.vkEndCommandBuffer] ++
       (if endOk then [] else [VkEvent.logError "vkEndCommandBuffer"]))
  else (r, [])

/-- AllocateAndBeginCommandBuffer (FNA3D_Driver_Vulkan.c:2528-2578):
advance the command-buffer counter, grow the array (doubling capacity) and
allocate a new command buffer when the counter exceeds capacity (returning 0
on allocation failure), then begin recording (returning 0 on failure). -/
def AllocateAndBeginCommandBuffer (r : Renderer) (allocOk beginOk : Bool) :
    Renderer × List VkEvent × Bool :=
  let r1 := { r with commandBufferCount := r.commandBufferCount + 1 }
  if r1.commandBufferCount > r1.commandBufferCapacity then
    let r2 := { r1 with commandBufferCapacity := r1.commandBufferCapacity * 2 }
    if allocOk then
      if beginOk then
        (r2, [VkEvent.vkAllocateCommandBuffers, VkEvent.vkBeginCommandBuffer],
          true)
      else
        (r2, [VkEvent.vkAllocateCommandBuffers, VkEvent.vkBeginCommandBuffer,
          VkEvent.logError "vkBeginCommandBuffer"], false)
    else
      (r2, [VkEvent.vkAllocateCommandBuffers,
        VkEvent.logError "vkAllocateCommandBuffers"], false)
  else
    if beginOk then (r1, [VkEvent.vkBeginCommandBuffer], true)
    else
      (r1, [VkEvent.vkBeginCommandBuffer,
        VkEvent.logError "vkBeginCommandBuffer"], false)

/-- Stall (FNA3D_Driver_Vulkan.c:3694-3743): end the current pass, submit
all recorded command buffers (early return with a log on failure), wait for
the queue to go idle (early return with a log on failure), then reset the
command-buffer counter, open a fresh command buffer, request a new render
pass, and reset `internalOffset`, `boundThisFrame` and `prevDataLength` on
every tracked buffer. -/
def Stall (r : Renderer) (o : VkOracles) : Renderer × List VkEvent :=
  let ep := EndPass r o.endOk
  let r1 := ep.1
  let submitEv := [VkEvent.vkQueueSubmit r1.commandBufferCount]
  if o.submitOk = false then
    (r1, ep.2 ++ submitEv ++ [VkEvent.logError "vkQueueSubmit"])
  else if o.waitIdleOk = false then
    (r1, ep.2 ++ submitEv ++
      [VkEvent.vkQueueWaitIdle, VkEvent.logError "vkQueueWaitIdle"])
  else
    let r2 := { r1 with commandBufferCount := 0 }
    let ab := AllocateAndBeginCommandBuffer r2 o.allocOk o.beginOk
    let resetBuf := fun (b : VulkanBuffer) =>
      { b with internalOffset := 0, boundThisFrame := false, prevDataLength := 0 }
    let r3 := { ab.1 with
      needNewRenderPass := true
      buffers := ab.1.buffers.map resetBuf }
    (r3, ep.2 ++ submitEv ++ [VkEvent.vkQueueWaitIdle] ++ ab.2.1)

/-- Tail of SetBufferData after the options handling
(FNA3D_Driver_Vulkan.c:1356-1376): copy the previous live region forward
inside the shadow copy when the write is partial and the cursor moved, copy
the incoming data in at the cursor plus the caller's offset, and record the
cursor as `prevInternalOffset`.  Writes buffer `i` of `r` back and appends
to the event trace `ev`. -/
def setBufferDataWrite (r : Renderer) (i : Nat) (buf : VulkanBuffer)
    (offsetInBytes : Nat) (data : List Nat) (dataLength : Nat)
    (ev : List VkEvent) : Renderer × List VkEvent :=
  let movedContents :=
    memMoveWithin buf.contents buf.internalOffset buf.prevInternalOffset buf.size
  let step1 :=
    if dataLength < buf.size ∧ buf.prevInternalOffset ≠ buf.internalOffset then
      ({ buf with contents := movedContents },
       [VkEvent.memWrite buf.internalOffset buf.size])
    else (buf, [])
  let buf1 := step1.1
  let writtenContents :=
    memWriteData buf1.contents (buf1.internalOffset + offsetInBytes) data dataLength
  let buf2 := { buf1 with contents := writtenContents }
  let buf3 := { buf2 with prevInternalOffset := buf2.internalOffset }
  ({ r with buffers := r.buffers.set i buf3 },
   ev ++ step1.2 ++
     [VkEvent.memWrite (buf1.internalOffset + offsetInBytes) dataLength])

/-- SetBufferData (FNA3D_Driver_Vulkan.c:1307-1376) acting on buffer `i` of
the renderer's buffer list.  When the buffer was bound this frame:
`FNA3D_SETDATAOPTIONS_NONE` warns in debug mode, stalls, and re-marks the
buffer bound; `FNA3D_SETDATAOPTIONS_DISCARD` advances the write cursor by
the logical size and doubles `internalBufferSize` (recreating the backing
buffer) when cursor + dataLength exceeds it.  Then the write itself runs
(`setBufferDataWrite`). -/
def SetBufferData (r : Renderer) (i : Nat) (offsetInBytes : Nat)
    (data : List Nat) (dataLength : Nat) (options : SetDataOptions)
    (o : VkOracles) : Renderer × List VkEvent :=
  match r.buffers[i]? with
  | Option.none => (r, [])
  | Option.some buf =>
    if buf.boundThisFrame then
      if options = SetDataOptions.none then
        let warnEv := if r.debugMode then [VkEvent.logWarn] else []
        let st := Stall r o
        let buf1 := (st.1.buffers[i]?).getD buf
        let buf2 := { buf1 with boundThisFrame := true }
        setBufferDataWrite st.1 i buf2 offsetInBytes data dataLength
          (warnEv ++ st.2)
      else if options = SetDataOptions.discard then
        let bufA := { buf with internalOffset := buf.internalOffset + buf.size }
        let sizeRequired := bufA.internalOffset + dataLength
        if sizeRequired > bufA.internalBufferSize then
          let previousSize := bufA.internalBufferSize
          let bufB := { bufA with
            internalBufferSize := bufA.internalBufferSize * 2 }
          let cb := CreateBackingBuffer bufB previousSize
          setBufferDataWrite r i cb.1 offsetInBytes data dataLength cb.2
        else setBufferDataWrite r i bufA offsetInBytes data dataLength []
      else setBufferDataWrite r i buf offsetInBytes data dataLength []
    else setBufferDataWrite r i buf offsetInBytes data dataLength []

/-- SetUserBufferData (FNA3D_Driver_Vulkan.c:1378-1407): advance the cursor
past the previous write's length, grow to
`max(internalBufferSize * 2, internalBufferSize + dataLength)` when the
cursor plus the incoming length exceeds capacity, copy `dataLength` bytes
from `data + offsetInBytes` to the cursor, and record `prevDataLength`. -/
def SetUserBufferData (buf : VulkanBuffer) (offsetInBytes : Nat)
    (data : List Nat) (dataLength : Nat) : VulkanBuffer × List VkEvent :=
  let bufA := { buf with
    internalOffset := buf.internalOffset + buf.prevDataLength }
  let sizeRequired := bufA.internalOffset + dataLength
  let grow :=
    if sizeRequired > bufA.internalBufferSize then
      let previousSize := bufA.internalBufferSize
      let grownSize :=
        max (bufA.internalBufferSize * 2) (bufA.internalBufferSize + dataLength)
      let bufB := { bufA with internalBufferSize := grownSize }
      CreateBackingBuffer bufB previousSize
    else (bufA, [])
  let buf1 := grow.1
  let writtenContents :=
    memWriteData buf1.contents buf1.internalOffset (data.drop offsetInBytes) dataLength
  let buf2 := { buf1 with contents := writtenContents }
  ({ buf2 with prevDataLength := dataLength },
   grow.2 ++ [VkEvent.memWrite buf1.internalOffset dataLength])

/-- VULKAN_SetVertexBufferData (FNA3D_Driver_Vulkan.c:4163-4183): forwards
to `SetBufferData` with `dataLength = elementCount * vertexStride`. -/
def VULKAN_SetVertexBufferData (r : Renderer) (i : Nat) (offsetInBytes : Nat)
    (data : List Nat) (elementCount vertexStride : Nat)
    (options : SetDataOptions) (o : VkOracles) : Renderer × List VkEvent :=
  SetBufferData r i offsetInBytes data (elementCount * vertexStride) options o

/-- VULKAN_SetIndexBufferData (FNA3D_Driver_Vulkan.c:4255-4272): forwards to
`SetBufferData` unchanged. -/
def VULKAN_SetIndexBufferData (r : Renderer) (i : Nat) (offsetInBytes : Nat)
    (data : List Nat) (dataLength : Nat) (options : SetDataOptions)
    (o : VkOracles) : Renderer × List VkEvent :=
  SetBufferData r i offsetInBytes data dataLength options o

/-- VULKAN_GetIndexBufferData (FNA3D_Driver_Vulkan.c:4274-4288): copy
`dataLength` bytes out of the CPU shadow copy starting at the raw
`offsetInBytes`, without consulting `internalOffset`. -/
def VULKAN_GetIndexBufferData (r : Renderer) (i : Nat) (offsetInBytes : Nat)
    (dataLength : Nat) : List (Option Nat) :=
  match r.buffers[i]? with
  | Option.none => []
  | Option.some buf =>
    (List.range dataLength).map fun j => buf.contents (offsetInBytes + j)

/-- Marking a buffer as bound by a draw: `indexBuffer->boundThisFrame = 1`
in VULKAN_DrawInstancedPrimitives (FNA3D_Driver_Vulkan.c:3025). -/
def markBufferBound (r : Renderer) (i : Nat) : Renderer :=
  match r.buffers[i]? with
  | Option.none => r
  | Option.some buf =>
    { r with buffers := r.buffers.set i { buf with boundThisFrame := true } }

/-- VULKAN_BeginFrame (FNA3D_Driver_Vulkan.c:2724-2771): no-op when a frame
is in progress; otherwise wait on and reset the frame fence, reset the
command pool, and acquire the next swapchain image.  If the acquire fails,
log and return without marking the frame in progress; on success mark the
frame in progress and reset the command-buffer counter. -/
def VULKAN_BeginFrame (r : Renderer) (o : VkOracles) :
    Renderer × List VkEvent :=
  if r.frameInProgress then (r, [])
  else
    let ev := VkEvent.vkWaitForFences ::
      ((if o.waitFencesOk then [] else [VkEvent.logError "vkWaitForFences"]) ++
        [VkEvent.vkResetFences, VkEvent.vkResetCommandPool,
          VkEvent.vkAcquireNextImage])
    if o.acquireOk then
      ({ r with
          frameInProgress := true
          commandBufferCount := 0
          currentSwapChainIndex := o.imageIndex }, ev)
    else (r, ev ++ [VkEvent.logError "vkAcquireNextImageKHR"])

/-- Recording part of BeginRenderPass (FNA3D_Driver_Vulkan.c:2615-2722)
once the command-buffer array is in place: fetch the render pass and
framebuffer, begin the command buffer (log and return on failure), set the
pass flags, issue the dynamic-state commands, and begin the render pass.
The loop marking the binding slots dirty (lines 2680-2703) acts on the
binding tracker, modelled separately as `markSlotsDirty`. -/
def beginRenderPassRecord (r : Renderer) (beginOk : Bool)
    (ev : List VkEvent) : Renderer × List VkEvent :=
  let ev1 := ev ++ [VkEvent.fetchRenderPassStep, VkEvent.fetchFramebufferStep,
    VkEvent.vkBeginCommandBuffer]
  if beginOk then
    ({ r with
        renderPassInProgress := true
        pipelineBoundThisFrame := false
        needNewRenderPass := false },
     ev1 ++ [VkEvent.cmdSetViewport, VkEvent.cmdSetScissor,
       VkEvent.cmdSetStencilReference, VkEvent.cmdSetBlendConstants,
       VkEvent.cmdSetDepthBias, VkEvent.cmdBeginRenderPass])
  else (r, ev1 ++ [VkEvent.logError "vkBeginCommandBuffer"])

/-- BeginRenderPass (FNA3D_Driver_Vulkan.c:2580-2722): advance the
command-buffer counter, grow the array when needed (log and return on
allocation failure), then record the pass opening. -/
def BeginRenderPass (r : Renderer) (allocOk beginOk : Bool) :
    Renderer × List VkEvent :=
  let r1 := { r with commandBufferCount := r.commandBufferCount + 1 }
  if r1.commandBufferCount > r1.commandBufferCapacity then
    let r2 := { r1 with commandBufferCapacity := r1.commandBufferCapacity * 2 }
    if allocOk then beginRenderPassRecord r2 beginOk [VkEvent.vkAllocateCommandBuffers]
    else (r2, [VkEvent.vkAllocateCommandBuffers,
      VkEvent.logError "vkAllocateCommandBuffers"])
  else beginRenderPassRecord r1 beginOk []

/-- UpdateRenderPass (FNA3D_Driver_Vulkan.c:3509-3542): when a new render
pass is needed, begin the frame, end any pass in progress, begin a render
pass, apply the queued clear (`InternalClear`, which issues
`vkCmdClearAttachments`), and reset the pending-clear flags. -/
def UpdateRenderPass (r : Renderer) (o : VkOracles) : Renderer × List VkEvent :=
  if r.needNewRenderPass = false then (r, [])
  else
    let bf := VULKAN_BeginFrame r o
    let ep := if bf.1.renderPassInProgress then EndPass bf.1 o.endOk
      else (bf.1, [])
    let brp := BeginRenderPass ep.1 o.allocOk o.beginOk
    ({ brp.1 with
        needNewRenderPass := false
        shouldClearColor := false
        shouldClearDepth := false
        shouldClearStencil := false },
     bf.2 ++ ep.2 ++ brp.2 ++ [VkEvent.cmdClearAttachments])

/-- VULKAN_SetRenderTargets (FNA3D_Driver_Vulkan.c:3592-3632) in the
`renderTargets == NULL` form used by `VULKAN_SwapBuffers`: perform any
pending clear via `UpdateRenderPass`, then request a new render pass (the
attachment pointer updates fall outside the modelled state). -/
def VULKAN_SetRenderTargetsNull (r : Renderer) (o : VkOracles) :
    Renderer × List VkEvent :=
  let up :=
    if r.shouldClearColor ∨ r.shouldClearDepth ∨ r.shouldClearStencil then
      UpdateRenderPass r o
    else (r, [])
  ({ up.1 with needNewRenderPass := true }, up.2)

/-- BlitFramebuffer (FNA3D_Driver_Vulkan.c:2003-2096): open a command
buffer, transition layouts, blit the faux backbuffer into the swapchain
image, transition back, and end the command buffer (logging on failure). -/
def BlitFramebuffer (r : Renderer) (allocOk beginOk endOk : Bool) :
    Renderer × List VkEvent × Bool :=
  let ab := AllocateAndBeginCommandBuffer r allocOk beginOk
  let ev := ab.2.1 ++ [VkEvent.cmdPipelineBarrier, VkEvent.cmdPipelineBarrier,
    VkEvent.cmdBlitImage, VkEvent.cmdPipelineBarrier,
    VkEvent.cmdPipelineBarrier, VkEvent.vkEndCommandBuffer]
  if endOk then (ab.1, ev, true)
  else (ab.1, ev ++ [VkEvent.logError "vkEndCommandBuffer"], false)

/-- VULKAN_SwapBuffers (FNA3D_Driver_Vulkan.c:2773-2876): begin the frame
(no-op mid-frame), force the default render targets, end any open pass,
blit the faux backbuffer to the acquired image, submit all recorded command
buffers (log and return on failure, leaving `frameInProgress` set), present
(logging on failure), and clear `frameInProgress`. -/
def VULKAN_SwapBuffers (r : Renderer) (o : VkOracles) :
    Renderer × List VkEvent :=
  let bf := VULKAN_BeginFrame r o
  let srt := VULKAN_SetRenderTargetsNull bf.1 o
  let ep := EndPass srt.1 o.endOk
  let blit := BlitFramebuffer ep.1 o.allocOk o.beginOk o.endOk
  let ev0 := bf.2 ++ srt.2 ++ ep.2 ++ blit.2.1
  let submitEv := [VkEvent.vkQueueSubmit blit.1.commandBufferCount]
  if o.submitOk = false then
    (blit.1, ev0 ++ submitEv ++ [VkEvent.logError "vkQueueSubmit"])
  else if o.presentOk = false then
    ({ blit.1 with frameInProgress := false },
     ev0 ++ submitEv ++ [VkEvent.vkQueuePresent,
       VkEvent.logError "vkQueuePresentKHR"])
  else
    ({ blit.1 with frameInProgress := false },
     ev0 ++ submitEv ++ [VkEvent.vkQueuePresent])


/-! ## Event predicates and concrete states used by the theorems -/

/-- Event is a CPU write into a buffer's shadow memory. -/
def isMemWrite : VkEvent → Bool
  | VkEvent.memWrite _ _ => true
  | _ => false

/-- Event is a `vkQueueSubmit` call. -/
def isQueueSubmit : VkEvent → Bool
  | VkEvent.vkQueueSubmit _ => true
  | _ => false

/-- Event is a `vkQueueWaitIdle` call. -/
def isWaitIdle : VkEvent → Bool
  | VkEvent.vkQueueWaitIdle => true
  | _ => false

/-- Event is a `vkCreateBuffer` call (a backing-buffer reallocation). -/
def isCreateBuffer : VkEvent → Bool
  | VkEvent.vkCreateBuffer _ => true
  | _ => false

/-- A renderer with no buffers, no frame or pass in progress. -/
def rendererBase : Renderer :=
  { buffers := [], commandBufferCount := 0, commandBufferCapacity := 0,
    renderPassInProgress := false, needNewRenderPass := false,
    frameInProgress := false, pipelineBoundThisFrame := false,
    shouldClearColor := false, shouldClearDepth := false,
    shouldClearStencil := false, currentSwapChainIndex := 0,
    debugMode := false }

/-- Buffer mid-grow for the CreateBackingBuffer evaluation: the caller has
already doubled `internalBufferSize` to 512; the previous live region
[0, 256) holds byte `i` at offset `i`. -/
def c3Buffer : VulkanBuffer :=
  { handleAllocated := true,
    contents := fun i => if i < 256 then some i else none,
    contentsAllocSize := 256, size := 256, internalOffset := 256,
    internalBufferSize := 512, prevDataLength := 0, prevInternalOffset := 0,
    boundThisFrame := true }

/-- A 256-byte dynamic buffer already bound this frame, write cursor 0. -/
def c2Buffer : VulkanBuffer :=
  { handleAllocated := true, contents := fun _ => none,
    contentsAllocSize := 8, size := 256, internalOffset := 0,
    internalBufferSize := 256, prevDataLength := 0, prevInternalOffset := 0,
    boundThisFrame := true }

/-- Renderer owning only `c2Buffer`. -/
def c2Renderer : Renderer := { rendererBase with buffers := [c2Buffer] }

/-- 256 bytes of payload for the discard scenario. -/
def c7Data : List Nat := List.replicate 256 1

/-- Fresh renderer owning one dynamic vertex buffer of logical size 256. -/
def c7Renderer : Renderer :=
  { rendererBase with buffers := [(CreateBuffer 256).1] }

/-- First 256-byte DISCARD write of the scenario. -/
def c7Write1 : Renderer × List VkEvent :=
  VULKAN_SetVertexBufferData c7Renderer 0 0 c7Data 256 1
    SetDataOptions.discard allOk

/-- Second write, no intervening bind (as the claim words it). -/
def c7Write2 : Renderer × List VkEvent :=
  VULKAN_SetVertexBufferData c7Write1.1 0 0 c7Data 256 1
    SetDataOptions.discard allOk

/-- Third write, no intervening bind. -/
def c7Write3 : Renderer × List VkEvent :=
  VULKAN_SetVertexBufferData c7Write2.1 0 0 c7Data 256 1
    SetDataOptions.discard allOk

/-- Second write when a draw bound the buffer in between
(`boundThisFrame = 1`). -/
def c7Bound2 : Renderer × List VkEvent :=
  VULKAN_SetVertexBufferData (markBufferBound c7Write1.1 0) 0 0 c7Data 256 1
    SetDataOptions.discard allOk

/-- Third write after another bind. -/
def c7Bound3 : Renderer × List VkEvent :=
  VULKAN_SetVertexBufferData (markBufferBound c7Bound2.1 0) 0 0 c7Data 256 1
    SetDataOptions.discard allOk

/-- A bound 256-byte index buffer whose shadow copy holds byte 3 at
offset 0, write cursor 0. -/
def c10Buffer : VulkanBuffer :=
  { handleAllocated := true,
    contents := fun i => if i = 0 then some 3 else none,
    contentsAllocSize := 8, size := 256, internalOffset := 0,
    internalBufferSize := 256, prevDataLength := 0, prevInternalOffset := 0,
    boundThisFrame := true }

/-- Renderer owning only `c10Buffer`. -/
def c10Renderer : Renderer := { rendererBase with buffers := [c10Buffer] }

/-! ## Resource binding tracker (BindResources, FNA3D_Driver_Vulkan.c:1021-1167,
and the dirty-marking loop of BeginRenderPass, lines 2676-2703)

The sampler-slot counts come from the public FNA3D headers (not under
src/): 16 fragment and 4 vertex sampler slots.  The claims' verdicts do not
depend on the exact values. -/

/-- MAX_TEXTURE_SAMPLERS (fragment sampler slots). -/
def MAX_TEXTURE_SAMPLERS : Nat := 16

/-- MAX_VERTEXTEXTURE_SAMPLERS (vertex sampler slots). -/
def MAX_VERTEXTEXTURE_SAMPLERS : Nat := 4

/-- MAX_TOTAL_SAMPLERS. -/
def MAX_TOTAL_SAMPLERS : Nat := MAX_TEXTURE_SAMPLERS + MAX_VERTEXTEXTURE_SAMPLERS

/-- Binding-tracker fields of FNAVulkanRenderer: the per-slot dirty flags,
what is bound in each slot (`textureBound i` = `textures[i] != &NullTexture`,
`samplerBound i` = `samplers[i] != NULL`), and the last-draw uniform-buffer
cache. -/
structure BindingState where
  currentSwapChainIndex : Nat
  textureNeedsUpdate : Nat → Bool
  samplerNeedsUpdate : Nat → Bool
  textureBound : Nat → Bool
  samplerBound : Nat → Bool
  ldVertUniformBuffer : Option Nat
  ldVertUniformOffset : Nat
  ldFragUniformBuffer : Option Nat
  ldFragUniformOffset : Nat

/-- One staging loop of BindResources (FNA3D_Driver_Vulkan.c:1032-1057 and
1059-1084): for each of `count` slots starting at `base`, when the slot's
texture or sampler flag is set, stage one combined-image-sampler descriptor
write and then clear the flags at index `base + 1` — the literal constant 1,
exactly as the C writes `[vertArrayOffset + 1]` / `[fragArrayOffset + 1]`,
not the loop index `i`.  Returns the state and the number of staged
writes. -/
def stageSamplerLoop (s : BindingState) (base count : Nat) :
    BindingState × Nat :=
  (List.range count).foldl
    (fun acc i =>
      if acc.1.textureNeedsUpdate (base + i) || acc.1.samplerNeedsUpdate (base + i) then
        ({ acc.1 with
            textureNeedsUpdate :=
              Function.update acc.1.textureNeedsUpdate (base + 1) false
            samplerNeedsUpdate :=
              Function.update acc.1.samplerNeedsUpdate (base + 1) false },
         acc.2 + 1)
      else acc)
    (s, 0)

/-- Descriptor-staging part of BindResources (FNA3D_Driver_Vulkan.c:1021-1150):
stage writes for dirty vertex-sampler slots, then dirty fragment-sampler
slots, then one write each for the vertex and fragment uniform buffers when
the handle or offset reported by MOJOSHADER_vkGetUniformBuffers (`vU`, `vOff`,
`fU`, `fOff`) differs from the last-draw cache; finally flush every staged
write in a single `vkUpdateDescriptorSets` call.  (The function ends by
rebinding the pipeline when the pipeline hash changed; that step touches no
binding-tracker state and is outside this model.)  Returns the state, the
staged write count, and the trace. -/
def BindResources (s : BindingState) (vU fU : Option Nat)
    (vOff fOff : Nat) : BindingState × Nat × List VkEvent :=
  let vBase := s.currentSwapChainIndex * MAX_VERTEXTEXTURE_SAMPLERS
  let fBase := s.currentSwapChainIndex * MAX_TEXTURE_SAMPLERS
  let l1 := stageSamplerLoop s vBase MAX_VERTEXTEXTURE_SAMPLERS
  let l2 := stageSamplerLoop l1.1 fBase MAX_TEXTURE_SAMPLERS
  let u1 :=
    if vU ≠ l2.1.ldVertUniformBuffer ∨ vOff ≠ l2.1.ldVertUniformOffset then
      ({ l2.1 with ldVertUniformBuffer := vU, ldVertUniformOffset := vOff }, 1)
    else (l2.1, 0)
  let u2 :=
    if fU ≠ u1.1.ldFragUniformBuffer ∨ fOff ≠ u1.1.ldFragUniformOffset then
      ({ u1.1 with ldFragUniformBuffer := fU, ldFragUniformOffset := fOff }, 1)
    else (u1.1, 0)
  let total := l1.2 + l2.2 + u1.2 + u2.2
  (u2.1, total, [VkEvent.updateDescriptorSets total])

/-- Dirty-marking in BeginRenderPass (FNA3D_Driver_Vulkan.c:2676-2703):
mark every slot of the current frame-in-flight with a bound texture or
sampler as needing an update, and reset the last-draw uniform caches.  (The
`ldVertexBuffers` reset loop concerns vertex-buffer binds, outside this
model.) -/
def markSlotsDirty (s : BindingState) : BindingState :=
  let base := MAX_TOTAL_SAMPLERS * s.currentSwapChainIndex
  let s1 := (List.range MAX_TOTAL_SAMPLERS).foldl
    (fun st i =>
      let st2 :=
        if st.textureBound (base + i) then
          { st with textureNeedsUpdate :=
              Function.update st.textureNeedsUpdate (base + i) true }
        else st
      if st2.samplerBound (base + i) then
        { st2 with samplerNeedsUpdate :=
            Function.update st2.samplerNeedsUpdate (base + i) true }
      else st2)
    s
  { s1 with
      ldVertUniformBuffer := none
      ldVertUniformOffset := 0
      ldFragUniformBuffer := none
      ldFragUniformOffset := 0 }

/-- Binding state for the dirty-flag scenario: frame-in-flight 0, a texture
bound in slot 4 only (a slot scanned by exactly one of the two staging
loops), uniform buffers cached. -/
def c6State : BindingState :=
  { currentSwapChainIndex := 0
    textureNeedsUpdate := fun _ => false
    samplerNeedsUpdate := fun _ => false
    textureBound := fun i => i == 4
    samplerBound := fun _ => false
    ldVertUniformBuffer := some 5
    ldVertUniformOffset := 0
    ldFragUniformBuffer := some 6
    ldFragUniformOffset := 0 }

/-- First draw's BindResources after the pass begins (uniform buffers
unchanged: MOJOSHADER reports the same `none`/0 as the reset caches). -/
def c6Draw1 : BindingState × Nat × List VkEvent :=
  BindResources (markSlotsDirty c6State) none none 0 0

/-- Second consecutive draw with no state changes. -/
def c6Draw2 : BindingState × Nat × List VkEvent :=
  BindResources c6Draw1.1 none none 0 0

/-! ## Theorems -/

theorem hmLookup_hmPut_self (m : List (Nat × Nat)) (k v : Nat) :
    hmLookup (hmPut m k v) k = some v := by
  induction m with
  | nil => simp [hmPut, hmLookup]
  | cons hd tl ih =>
    obtain ⟨k', v'⟩ := hd
    by_cases h : k' = k <;> simp [hmPut, hmLookup, h, ih]

theorem hmLookup_hmPut_other (m : List (Nat × Nat)) (k k' v : Nat)
    (h : k' ≠ k) : hmLookup (hmPut m k v) k' = hmLookup m k' := by
  induction m with
  | nil => simp [hmPut, hmLookup, Ne.symm h]
  | cons hd tl ih =>
    obtain ⟨k₀, v₀⟩ := hd
    by_cases h₀ : k₀ = k
    · subst h₀
      simp [hmPut, hmLookup, Ne.symm h]
    · simp [hmPut, hmLookup, h₀, ih]

theorem FetchPipeline_lookup_mono (s : PipelineCacheState) (k : Nat)
    (o : Option Nat) (k' v : Nat) (h : hmLookup s.pipelineHashMap k' = some v) :
    hmLookup (FetchPipeline s k o).1.pipelineHashMap k' = some v := by
  unfold FetchPipeline
  cases hc : hmLookup s.pipelineHashMap k with
  | some p => simpa using h
  | none =>
    cases o with
    | none => simpa using h
    | some p =>
      by_cases e : k' = k
      · subst e; rw [h] at hc; cases hc
      · simpa [hmLookup_hmPut_other _ _ _ _ e] using h

theorem FetchSamplerState_lookup_mono (m : List (Nat × Nat)) (k : Nat)
    (o : Option Nat) (k' v : Nat) (h : hmLookup m k' = some v) :
    hmLookup (FetchSamplerState m k o).1 k' = some v := by
  unfold FetchSamplerState
  cases hc : hmLookup m k with
  | some p => simpa using h
  | none =>
    cases o with
    | none => simpa using h
    | some p =>
      by_cases e : k' = k
      · subst e; rw [h] at hc; cases hc
      · simpa [hmLookup_hmPut_other _ _ _ _ e] using h

theorem runPipelineFetches_lookup_mono (reqs : List (Nat × Nat)) :
    ∀ (s : PipelineCacheState) (k v : Nat),
      hmLookup s.pipelineHashMap k = some v →
      hmLookup (runPipelineFetches s reqs).1.pipelineHashMap k = some v := by
  induction reqs with
  | nil => intro s k v h; simpa [runPipelineFetches] using h
  | cons hd tl ih =>
    intro s k v h
    obtain ⟨k₀, fresh⟩ := hd
    exact ih _ k v (FetchPipeline_lookup_mono s k₀ (some fresh) k v h)

theorem runSamplerFetches_lookup_mono (reqs : List (Nat × Nat)) :
    ∀ (m : List (Nat × Nat)) (k v : Nat),
      hmLookup m k = some v →
      hmLookup (runSamplerFetches m reqs).1 k = some v := by
  induction reqs with
  | nil => intro m k v h; simpa [runSamplerFetches] using h
  | cons hd tl ih =>
    intro m k v h
    obtain ⟨k₀, fresh⟩ := hd
    exact ih _ k v (FetchSamplerState_lookup_mono m k₀ (some fresh) k v h)

theorem pipelineCacheState_mk_map (m : List (Nat × Nat)) (c : Nat) :
    (PipelineCacheState.mk m c).pipelineHashMap = m := rfl

theorem runPipelineFetches_out (reqs : List (Nat × Nat)) :
    ∀ (s : PipelineCacheState) (k : Nat) (h : Option Nat),
      (k, h) ∈ (runPipelineFetches s reqs).2.1 →
      ∃ v, h = some v ∧
        hmLookup (runPipelineFetches s reqs).1.pipelineHashMap k = some v := by
  induction reqs with
  | nil => intro s k h hm; simp [runPipelineFetches] at hm
  | cons hd tl ih =>
    intro s k h hm
    obtain ⟨k₀, fresh⟩ := hd
    simp only [runPipelineFetches, List.mem_cons, Prod.mk.injEq] at hm
    rcases hm with ⟨hk, hh⟩ | hm
    · subst hk
      cases hc : hmLookup s.pipelineHashMap k with
      | some p =>
        refine ⟨p, ?_, ?_⟩
        · rw [hh]; simp [FetchPipeline, hc]
        · simp only [runPipelineFetches]
          apply runPipelineFetches_lookup_mono
          simp [FetchPipeline, hc]
      | none =>
        refine ⟨fresh, ?_, ?_⟩
        · rw [hh]; simp [FetchPipeline, hc]
        · simp only [runPipelineFetches]
          apply runPipelineFetches_lookup_mono
          simp [FetchPipeline, hc, hmLookup_hmPut_self]
    · simp only [runPipelineFetches]
      exact ih _ k h hm

theorem runSamplerFetches_out (reqs : List (Nat × Nat)) :
    ∀ (m : List (Nat × Nat)) (k : Nat) (h : Option Nat),
      (k, h) ∈ (runSamplerFetches m reqs).2.1 →
      ∃ v, h = some v ∧
        hmLookup (runSamplerFetches m reqs).1 k = some v := by
  induction reqs with
  | nil => intro m k h hm; simp [runSamplerFetches] at hm
  | cons hd tl ih =>
    intro m k h hm
    obtain ⟨k₀, fresh⟩ := hd
    simp only [runSamplerFetches, List.mem_cons, Prod.mk.injEq] at hm
    rcases hm with ⟨hk, hh⟩ | hm
    · subst hk
      cases hc : hmLookup m k with
      | some p =>
        refine ⟨p, ?_, ?_⟩
        · rw [hh]; simp [FetchSamplerState, hc]
        · simp only [runSamplerFetches]
          apply runSamplerFetches_lookup_mono
          simp [FetchSamplerState, hc]
      | none =>
        refine ⟨fresh, ?_, ?_⟩
        · rw [hh]; simp [FetchSamplerState, hc]
        · simp only [runSamplerFetches]
          apply runSamplerFetches_lookup_mono
          simp [FetchSamplerState, hc, hmLookup_hmPut_self]
    · simp only [runSamplerFetches]
      exact ih _ k h hm

theorem runPipelineFetches_log_count (reqs : List (Nat × Nat)) :
    ∀ (s : PipelineCacheState) (k : Nat),
      ((runPipelineFetches s reqs).2.2).count k =
        if hmLookup s.pipelineHashMap k = none ∧ k ∈ reqs.map Prod.fst
        then 1 else 0 := by
  induction reqs with
  | nil => intro s k; simp [runPipelineFetches]
  | cons hd tl ih =>
    intro s k
    obtain ⟨k₀, fresh⟩ := hd
    simp only [runPipelineFetches, List.count_append, List.map_cons,
      List.mem_cons]
    cases hc : hmLookup s.pipelineHashMap k₀ with
    | some p =>
      simp only [FetchPipeline, hc]
      rw [ih]
      by_cases e : k = k₀
      · subst e; simp [pipelineCacheState_mk_map, hc]
      · have hc0 : List.count k (if false = true then [k₀] else ([] : List Nat))
            = 0 := by simp
        rw [hc0, Nat.zero_add]
        simp only [pipelineCacheState_mk_map]
        have hiff : (hmLookup s.pipelineHashMap k = none ∧
            k ∈ List.map Prod.fst tl) ↔
            (hmLookup s.pipelineHashMap k = none ∧
              (k = k₀ ∨ k ∈ List.map Prod.fst tl)) :=
          and_congr_right fun _ => (or_iff_right e).symm
        exact if_congr hiff rfl rfl
    | none =>
      simp only [FetchPipeline, hc]
      rw [ih]
      by_cases e : k = k₀
      · subst e
        simp [pipelineCacheState_mk_map, hc, hmLookup_hmPut_self]
      · have hc0 : List.count k (if True then [k₀] else ([] : List Nat))
            = 0 := by simp [e]
        rw [hc0, Nat.zero_add]
        simp only [pipelineCacheState_mk_map]
        rw [hmLookup_hmPut_other s.pipelineHashMap k₀ k fresh e]
        have hiff : (hmLookup s.pipelineHashMap k = none ∧
            k ∈ List.map Prod.fst tl) ↔
            (hmLookup s.pipelineHashMap k = none ∧
              (k = k₀ ∨ k ∈ List.map Prod.fst tl)) :=
          and_congr_right fun _ => (or_iff_right e).symm
        exact if_congr hiff rfl rfl

theorem runSamplerFetches_log_count (reqs : List (Nat × Nat)) :
    ∀ (m : List (Nat × Nat)) (k : Nat),
      ((runSamplerFetches m reqs).2.2).count k =
        if hmLookup m k = none ∧ k ∈ reqs.map Prod.fst then 1 else 0 := by
  induction reqs with
  | nil => intro m k; simp [runSamplerFetches]
  | cons hd tl ih =>
    intro m k
    obtain ⟨k₀, fresh⟩ := hd
    simp only [runSamplerFetches, List.count_append, List.map_cons,
      List.mem_cons]
    cases hc : hmLookup m k₀ with
    | some p =>
      simp only [FetchSamplerState, hc]
      rw [ih]
      by_cases e : k = k₀
      · subst e; simp [hc]
      · have hc0 : List.count k (if false = true then [k₀] else ([] : List Nat))
            = 0 := by simp
        rw [hc0, Nat.zero_add]
        have hiff : (hmLookup m k = none ∧ k ∈ List.map Prod.fst tl) ↔
            (hmLookup m k = none ∧ (k = k₀ ∨ k ∈ List.map Prod.fst tl)) :=
          and_congr_right fun _ => (or_iff_right e).symm
        exact if_congr hiff rfl rfl
    | none =>
      simp only [FetchSamplerState, hc]
      rw [ih]
      by_cases e : k = k₀
      · subst e
        simp [hc, hmLookup_hmPut_self]
      · have hc0 : List.count k (if True then [k₀] else ([] : List Nat))
            = 0 := by simp [e]
        rw [hc0, Nat.zero_add]
        rw [hmLookup_hmPut_other m k₀ k fresh e]
        have hiff : (hmLookup m k = none ∧ k ∈ List.map Prod.fst tl) ↔
            (hmLookup m k = none ∧ (k = k₀ ∨ k ∈ List.map Prod.fst tl)) :=
          and_congr_right fun _ => (or_iff_right e).symm
        exact if_congr hiff rfl rfl

/-- C1 — Cache idempotence.  Starting from the empty caches a device is
created with, any sequence of `FetchPipeline` (resp. `FetchSamplerState`)
calls in which every native creation succeeds satisfies: the native creation
function is invoked exactly once per distinct fetched key (and never for a
key never fetched), every fetch returns a real (non-`NULL`) handle, and any
two fetches of the same key return the identical native handle. -/
theorem c1_cache_idempotence (reqs : List (Nat × Nat)) :
    (∀ k, ((runPipelineFetches ⟨[], 0⟩ reqs).2.2).count k =
        if k ∈ reqs.map Prod.fst then 1 else 0) ∧
    (∀ k h₁ h₂, (k, h₁) ∈ (runPipelineFetches ⟨[], 0⟩ reqs).2.1 →
        (k, h₂) ∈ (runPipelineFetches ⟨[], 0⟩ reqs).2.1 →
        h₁ = h₂ ∧ h₁.isSome) ∧
    (∀ k, ((runSamplerFetches [] reqs).2.2).count k =
        if k ∈ reqs.map Prod.fst then 1 else 0) ∧
    (∀ k h₁ h₂, (k, h₁) ∈ (runSamplerFetches [] reqs).2.1 →
        (k, h₂) ∈ (runSamplerFetches [] reqs).2.1 →
        h₁ = h₂ ∧ h₁.isSome) := by
  refine ⟨fun k => ?_, fun k h₁ h₂ m₁ m₂ => ?_, fun k => ?_,
    fun k h₁ h₂ m₁ m₂ => ?_⟩
  · have h := runPipelineFetches_log_count reqs ⟨[], 0⟩ k
    have hiff : (hmLookup (⟨[], 0⟩ : PipelineCacheState).pipelineHashMap k = none ∧
        k ∈ reqs.map Prod.fst) ↔ k ∈ reqs.map Prod.fst := by simp [hmLookup]
    rw [if_congr hiff rfl rfl] at h
    exact h
  · obtain ⟨v₁, e₁, l₁⟩ := runPipelineFetches_out reqs ⟨[], 0⟩ k h₁ m₁
    obtain ⟨v₂, e₂, l₂⟩ := runPipelineFetches_out reqs ⟨[], 0⟩ k h₂ m₂
    rw [l₁] at l₂
    cases l₂
    exact ⟨e₁.trans e₂.symm, by simp [e₁]⟩
  · have h := runSamplerFetches_log_count reqs [] k
    have hiff : (hmLookup [] k = none ∧ k ∈ reqs.map Prod.fst) ↔
        k ∈ reqs.map Prod.fst := by simp [hmLookup]
    rw [if_congr hiff rfl rfl] at h
    exact h
  · obtain ⟨v₁, e₁, l₁⟩ := runSamplerFetches_out reqs [] k h₁ m₁
    obtain ⟨v₂, e₂, l₂⟩ := runSamplerFetches_out reqs [] k h₂ m₂
    rw [l₁] at l₂
    cases l₂
    exact ⟨e₁.trans e₂.symm, by simp [e₁]⟩

/-- Witness for `c1_cache_idempotence`: fetching key 5 twice (fresh handles
100 then 200) creates once and both fetches return handle 100. -/
theorem c1_cache_idempotence_witness :
    ((runPipelineFetches ⟨[], 0⟩ [(5, 100), (5, 200)]).2.2).count 5 = 1 ∧
    (some 100 = some 100 ∧ (some (100 : Nat)).isSome) := by
  refine ⟨?_, ?_⟩
  · have h := (c1_cache_idempotence [(5, 100), (5, 200)]).1 5
    simpa using h
  · exact (c1_cache_idempotence [(5, 100), (5, 200)]).2.1 5 (some 100)
      (some 100) (by decide) (by decide)

/-- C5 counterexample: a failing `vkCreateFramebuffer` still inserts a
cache entry.  On an empty framebuffer cache, fetching key 3 when creation
fails (garbage handle value 42) inserts `(3, 42)` — the cache is not left
unmodified. -/
theorem c5_counterexample :
    FetchFramebuffer [] 3 false 42 = ([(3, 42)], 42, true, true) ∧
    ([(3, 42)] : List (Nat × Nat)) ≠ [] := by
  exact ⟨rfl, by decide⟩

/-- C5 (amended) — Creation failure and the caches.  On a cache miss where
the native creation fails, `FetchPipeline`, `FetchRenderPass` and
`FetchSamplerState` leave their caches unmodified and surface the failure by
returning `NULL`/`0`; `FetchFramebuffer`, by contrast, logs the failure but
still inserts the (key, garbage-handle) entry into its cache and returns it. -/
theorem c5_creation_failure (s : PipelineCacheState) (m₁ m₂ m₃ : List (Nat × Nat))
    (k junk : Nat) (h₀ : hmLookup s.pipelineHashMap k = none)
    (h₁ : hmLookup m₁ k = none) (h₂ : hmLookup m₂ k = none)
    (h₃ : hmLookup m₃ k = none) :
    FetchPipeline s k none = (s, none, true) ∧
    FetchRenderPass m₁ k none = (m₁, none, true) ∧
    FetchSamplerState m₂ k none = (m₂, none, true) ∧
    FetchFramebuffer m₃ k false junk = (hmPut m₃ k junk, junk, true, true) := by
  simp [FetchPipeline, FetchRenderPass, FetchSamplerState, FetchFramebuffer,
    h₀, h₁, h₂, h₃]

/-- Witness for `c5_creation_failure` on empty caches with key 0 and
garbage handle 7. -/
theorem c5_creation_failure_witness :
    FetchPipeline ⟨[], 0⟩ 0 none = (⟨[], 0⟩, none, true) ∧
    FetchRenderPass [] 0 none = ([], none, true) ∧
    FetchSamplerState [] 0 none = ([], none, true) ∧
    FetchFramebuffer [] 0 false 7 = (hmPut [] 0 7, 7, true, true) :=
  c5_creation_failure ⟨[], 0⟩ [] [] [] 0 7 rfl rfl rfl rfl

/-- C9 — EndPass is a guarded no-op: it ends the render pass and the current
command buffer and clears the pass-in-progress flag only when a pass is in
progress and at least one command buffer exists; in every other state it
leaves the renderer unchanged and records nothing, and a repeated call is
always a no-op. -/
theorem c9_endpass_guarded (r : Renderer) (endOk endOk2 : Bool) :
    (¬(r.renderPassInProgress = true ∧ 0 < r.commandBufferCount) →
      EndPass r endOk = (r, [])) ∧
    (r.renderPassInProgress = true ∧ 0 < r.commandBufferCount →
      (EndPass r endOk).1 = { r with renderPassInProgress := false } ∧
      (EndPass r endOk).2 =
        [VkEvent.cmdEndRenderPass, VkEvent.vkEndCommandBuffer] ++
          (if endOk then [] else [VkEvent.logError "vkEndCommandBuffer"])) ∧
    EndPass (EndPass r endOk).1 endOk2 = ((EndPass r endOk).1, []) := by
  refine ⟨fun h => ?_, fun h => ?_, ?_⟩
  · simp [EndPass, h]
  · simp [EndPass, h]
  · by_cases h : r.renderPassInProgress = true ∧ 0 < r.commandBufferCount
    · simp [EndPass, h]
    · simp [EndPass, h]

/-- Witness for `c9_endpass_guarded`: on a renderer with no pass in
progress, EndPass changes nothing and records nothing. -/
theorem c9_endpass_guarded_witness :
    EndPass rendererBase true = (rendererBase, []) :=
  (c9_endpass_guarded rendererBase true true).1 (by decide)

/-- C3 — evaluation of the growth-copy defect at a concrete input: growing
`c3Buffer` (previous live region [0, 256), the caller passing previous size
256) preserves byte 3 but loses byte 12, because `CreateBackingBuffer`
copies forward only `sizeof(previousSize)` = 8 bytes and allocates the new
shadow copy with `SDL_malloc(sizeof(buffer->internalBufferSize))` = 8
bytes; the old native buffer is destroyed only after that copy. -/
theorem c3_growth_copy_bug :
    (CreateBackingBuffer c3Buffer 256).1.contents 3 = some 3 ∧
    (CreateBackingBuffer c3Buffer 256).1.contents 12 = none ∧
    (CreateBackingBuffer c3Buffer 256).1.contents 12 ≠ c3Buffer.contents 12 ∧
    (CreateBackingBuffer c3Buffer 256).1.contentsAllocSize = 8 ∧
    (CreateBackingBuffer c3Buffer 256).2 =
      [VkEvent.vkCreateBuffer 512, VkEvent.vkDestroyBuffer] := by
  refine ⟨by decide, by decide, by decide, by decide, by decide⟩

/-- C2 counterexample: on a 256-byte buffer bound this frame with cursor 0,
a 1024-byte DISCARD write advances the cursor to 256 (required size 1280)
and performs exactly one reallocation, but the new capacity is 512 —
double the old capacity, NOT ≥ cursor + incoming length. -/
theorem c2_counterexample :
    ((SetBufferData c2Renderer 0 0 (List.replicate 1024 7) 1024
        SetDataOptions.discard allOk).1.buffers.map
      fun b => (b.internalBufferSize, b.internalOffset)) = [(512, 256)] ∧
    (SetBufferData c2Renderer 0 0 (List.replicate 1024 7) 1024
        SetDataOptions.discard allOk).2.countP isCreateBuffer = 1 ∧
    512 < 256 + 1024 := by
  refine ⟨by decide, by decide, by decide⟩

/-- C7 counterexample: on a fresh 256-byte dynamic vertex buffer, three
256-byte DISCARD writes with no intervening binds never set
`boundThisFrame`, so the discard path is never taken: after the second
(and third) write the capacity is still 256 and the write cursor still 0
(each write lands at offset 0), not 512 and 256 as the claim states. -/
theorem c7_counterexample :
    (c7Write2.1.buffers.map fun b => (b.internalBufferSize, b.internalOffset))
      = [(256, 0)] ∧
    c7Write2.2 = [VkEvent.memWrite 0 256] ∧
    (c7Write3.1.buffers.map fun b => (b.internalBufferSize, b.internalOffset))
      = [(256, 0)] ∧
    ((256, 0) : Nat × Nat) ≠ (512, 256) := by
  refine ⟨by decide, by decide, by decide, by decide⟩

/-- C7 (amended) — the concrete discard scenario as the code actually
behaves: with no intervening binds all three 256-byte DISCARD writes leave
capacity 256 and cursor 0; when a draw marks the buffer bound before the
second and third writes, capacity grows 256 → 512 → 1024 (≥ 768) with
exactly one reallocation per grown write, the writes land at cursors 0,
256, 512, and no stall (no submit or queue-idle wait) occurs anywhere. -/
theorem c7_discard_scenario :
    (c7Write1.1.buffers.map fun b => b.internalBufferSize) = [256] ∧
    c7Write1.2 = [VkEvent.memWrite 0 256] ∧
    (c7Bound2.1.buffers.map fun b => b.internalBufferSize) = [512] ∧
    c7Bound2.2 = [VkEvent.vkCreateBuffer 512, VkEvent.vkDestroyBuffer,
      VkEvent.memWrite 256 256] ∧
    (c7Bound3.1.buffers.map fun b => b.internalBufferSize) = [1024] ∧
    c7Bound3.2 = [VkEvent.vkCreateBuffer 1024, VkEvent.vkDestroyBuffer,
      VkEvent.memWrite 512 256] ∧
    768 ≤ 1024 ∧
    (c7Write1.2 ++ c7Bound2.2 ++ c7Bound3.2).countP isQueueSubmit = 0 ∧
    (c7Write1.2 ++ c7Bound2.2 ++ c7Bound3.2).countP isWaitIdle = 0 := by
  refine ⟨by decide, by decide, by decide, by decide, by decide, by decide,
    by decide, by decide, by decide⟩

/-- C10 counterexample: on a bound buffer with cursor 0 whose byte 0 is 3,
a 1-byte DISCARD write of byte 7 at offset 0 lands at the advanced cursor
256, so the subsequent read at raw offset 0 returns the old byte 3, not the
written byte 7. -/
theorem c10_counterexample :
    VULKAN_GetIndexBufferData
      (VULKAN_SetIndexBufferData c10Renderer 0 0 [7] 1
        SetDataOptions.discard allOk).1 0 0 1 = [some 3] ∧
    ([some 3] : List (Option Nat)) ≠ [7].map some := by
  refine ⟨by decide, by decide⟩

/-- C6 — dirty-flag convergence fails: after a render pass begins with a
texture bound in slot 4, the first draw's BindResources stages exactly one
descriptor write and flushes it in a single vkUpdateDescriptorSets call,
but the clear is written to slot index base + 1 instead of base + i, so
slot 4 stays flagged and the second consecutive draw with no state changes
stages one write again instead of zero. -/
theorem c6_dirty_flag_bug :
    c6Draw1.2.1 = 1 ∧
    c6Draw1.2.2 = [VkEvent.updateDescriptorSets 1] ∧
    c6Draw1.1.textureNeedsUpdate 4 = true ∧
    c6Draw2.2.1 = 1 ∧
    c6Draw2.2.2 = [VkEvent.updateDescriptorSets 1] ∧
    (1 : Nat) ≠ 0 := by
  refine ⟨by decide, by decide, by decide, by decide, by decide, by decide⟩


theorem index_lt_of_getElem?_eq_some {l : List VulkanBuffer} {i : Nat}
    {b : VulkanBuffer} (h : l[i]? = some b) : i < l.length := by
  by_contra hn
  rw [List.getElem?_eq_none (Nat.le_of_not_lt hn)] at h
  cases h

theorem CreateBackingBuffer_capacity (buf : VulkanBuffer) (ps : Nat) :
    (CreateBackingBuffer buf ps).1.internalBufferSize =
      buf.internalBufferSize := by
  cases hh : buf.handleAllocated <;> simp [CreateBackingBuffer, hh]

theorem CreateBackingBuffer_offset (buf : VulkanBuffer) (ps : Nat) :
    (CreateBackingBuffer buf ps).1.internalOffset = buf.internalOffset := by
  cases hh : buf.handleAllocated <;> simp [CreateBackingBuffer, hh]

theorem CreateBackingBuffer_one_creation (buf : VulkanBuffer) (ps : Nat) :
    (CreateBackingBuffer buf ps).2.countP isCreateBuffer = 1 := by
  cases hh : buf.handleAllocated <;>
    simp [CreateBackingBuffer, hh, isCreateBuffer]

theorem setBufferDataWrite_capacity (r : Renderer) (i : Nat)
    (buf : VulkanBuffer) (off : Nat) (data : List Nat) (len : Nat)
    (ev : List VkEvent) (hlen : i < r.buffers.length) :
    ((setBufferDataWrite r i buf off data len ev).1.buffers[i]?).map
        (fun b => (b.internalBufferSize, b.internalOffset)) =
      some (buf.internalBufferSize, buf.internalOffset) := by
  by_cases h : len < buf.size ∧ buf.prevInternalOffset ≠ buf.internalOffset <;>
    simp [setBufferDataWrite, h, List.getElem?_set_eq_of_lt _ hlen]

theorem setBufferDataWrite_creations (r : Renderer) (i : Nat)
    (buf : VulkanBuffer) (off : Nat) (data : List Nat) (len : Nat)
    (ev : List VkEvent) :
    (setBufferDataWrite r i buf off data len ev).2.countP isCreateBuffer =
      ev.countP isCreateBuffer := by
  by_cases h : len < buf.size ∧ buf.prevInternalOffset ≠ buf.internalOffset <;>
    simp [setBufferDataWrite, h, isCreateBuffer]

/-- C2 (amended) — DISCARD growth doubles: for every SetBufferData call with
DISCARD on a buffer bound this frame for which the advanced cursor plus the
incoming length exceeds capacity, exactly one reallocation occurs and the
new capacity is exactly double the old capacity — hence ≥ the old capacity,
and ≥ cursor + incoming length provided the incoming length and the
advanced cursor are each at most the old capacity (this is not guaranteed in
general: see the counterexample).  `SetUserBufferData`, by contrast, grows
to max(2·old, old + length), which is always ≥ the old capacity and ≥ the
required size, given the write-cursor invariant. -/
theorem c2_discard_growth (r : Renderer) (i : Nat) (buf : VulkanBuffer)
    (offsetInBytes : Nat) (data : List Nat) (dataLength : Nat) (o : VkOracles)
    (hb : r.buffers[i]? = some buf) (hbound : buf.boundThisFrame = true)
    (hgrow : buf.internalOffset + buf.size + dataLength >
      buf.internalBufferSize) :
    ((SetBufferData r i offsetInBytes data dataLength SetDataOptions.discard
          o).1.buffers[i]?).map
        (fun b => (b.internalBufferSize, b.internalOffset)) =
      some (buf.internalBufferSize * 2, buf.internalOffset + buf.size) ∧
    (SetBufferData r i offsetInBytes data dataLength SetDataOptions.discard
        o).2.countP isCreateBuffer = 1 ∧
    buf.internalBufferSize ≤ buf.internalBufferSize * 2 ∧
    (dataLength ≤ buf.internalBufferSize →
      buf.internalOffset + buf.size ≤ buf.internalBufferSize →
      buf.internalOffset + buf.size + dataLength ≤
        buf.internalBufferSize * 2) ∧
    (∀ (ubuf : VulkanBuffer) (uoff udlen : Nat) (udata : List Nat),
      ubuf.internalOffset + ubuf.prevDataLength ≤ ubuf.internalBufferSize →
      ubuf.internalBufferSize ≤
          (SetUserBufferData ubuf uoff udata udlen).1.internalBufferSize ∧
      ubuf.internalOffset + ubuf.prevDataLength + udlen ≤
          (SetUserBufferData ubuf uoff udata udlen).1.internalBufferSize) := by
  have hlen : i < r.buffers.length := index_lt_of_getElem?_eq_some hb
  have hred : SetBufferData r i offsetInBytes data dataLength
      SetDataOptions.discard o =
      setBufferDataWrite r i
        (CreateBackingBuffer
          { buf with
              internalOffset := buf.internalOffset + buf.size
              internalBufferSize := buf.internalBufferSize * 2 }
          buf.internalBufferSize).1
        offsetInBytes data dataLength
        (CreateBackingBuffer
          { buf with
              internalOffset := buf.internalOffset + buf.size
              internalBufferSize := buf.internalBufferSize * 2 }
          buf.internalBufferSize).2 := by
    simp only [SetBufferData, hb, hbound, if_true]
    rw [if_pos hgrow]
    rfl
  refine ⟨?_, ?_, Nat.le_mul_of_pos_right _ (by decide), fun h1 h2 => by omega,
    fun ubuf uoff udlen udata hinv => ?_⟩
  · rw [hred, setBufferDataWrite_capacity _ _ _ _ _ _ _ hlen,
      CreateBackingBuffer_capacity, CreateBackingBuffer_offset]
  · rw [hred, setBufferDataWrite_creations, CreateBackingBuffer_one_creation]
  · by_cases hg : ubuf.internalOffset + ubuf.prevDataLength + udlen >
        ubuf.internalBufferSize
    · have : (SetUserBufferData ubuf uoff udata udlen).1.internalBufferSize =
          max (ubuf.internalBufferSize * 2)
            (ubuf.internalBufferSize + udlen) := by
        simp only [SetUserBufferData]
        rw [if_pos hg]
        rw [CreateBackingBuffer_capacity]
      rw [this]
      constructor
      · exact le_max_of_le_left (Nat.le_mul_of_pos_right _ (by decide))
      · exact le_max_of_le_right (by omega)
    · have : (SetUserBufferData ubuf uoff udata udlen).1.internalBufferSize =
          ubuf.internalBufferSize := by
        simp only [SetUserBufferData]
        rw [if_neg hg]
      rw [this]
      exact ⟨Nat.le_refl _, by omega⟩

/-- Witness for `c2_discard_growth`: a bound 256-byte buffer at cursor 0
receiving a 256-byte DISCARD write (`c7Bound2` is exactly this situation
restated on `c2Buffer` with small data). -/
theorem c2_discard_growth_witness :
    ((SetBufferData c2Renderer 0 0 [9] 300 SetDataOptions.discard
          allOk).1.buffers[0]?).map
        (fun b => (b.internalBufferSize, b.internalOffset)) =
      some (512, 256) ∧
    (SetBufferData c2Renderer 0 0 [9] 300 SetDataOptions.discard
        allOk).2.countP isCreateBuffer = 1 := by
  have h := c2_discard_growth c2Renderer 0 c2Buffer 0 [9] 300 allOk
    rfl rfl (by decide)
  exact ⟨h.1, h.2.1⟩

theorem memWriteData_read (m : Mem) (dst : Nat) (data : List Nat) (j : Nat)
    (hj : j < data.length) :
    memWriteData m dst data data.length (dst + j) = some (data.getD j 0) := by
  simp [memWriteData, hj]

theorem range_map_read (m : Mem) (dst : Nat) (data : List Nat) :
    (List.range data.length).map
        (fun j => memWriteData m dst data data.length (dst + j)) =
      data.map some := by
  apply List.ext_getElem
  · simp
  · intro n h1 h2
    have hn : n < data.length := by simpa using h2
    simp only [List.getElem_map, List.getElem_range]
    rw [memWriteData_read _ _ _ _ hn]
    simp [List.getD, List.getElem?_eq_getElem hn]

theorem getAfterWrite (r : Renderer) (i : Nat) (buf : VulkanBuffer)
    (offsetInBytes : Nat) (data : List Nat) (ev : List VkEvent)
    (hlen : i < r.buffers.length) (hoff : buf.internalOffset = 0) :
    VULKAN_GetIndexBufferData
      (setBufferDataWrite r i buf offsetInBytes data data.length ev).1 i
      offsetInBytes data.length = data.map some := by
  simp only [setBufferDataWrite, VULKAN_GetIndexBufferData]
  by_cases h : data.length < buf.size ∧
      buf.prevInternalOffset ≠ buf.internalOffset
  · rw [if_pos h, List.getElem?_set_eq_of_lt _ hlen]
    simp only [hoff, Nat.zero_add]
    exact range_map_read _ offsetInBytes data
  · rw [if_neg h, List.getElem?_set_eq_of_lt _ hlen]
    simp only [hoff, Nat.zero_add]
    exact range_map_read _ offsetInBytes data

theorem EndPass_buffers (r : Renderer) (b : Bool) :
    (EndPass r b).1.buffers = r.buffers := by
  by_cases h : r.renderPassInProgress = true ∧ 0 < r.commandBufferCount <;>
    simp [EndPass, h]

theorem AllocateAndBegin_buffers (r : Renderer) (a b : Bool) :
    (AllocateAndBeginCommandBuffer r a b).1.buffers = r.buffers := by
  by_cases h : r.commandBufferCount + 1 > r.commandBufferCapacity <;>
    cases a <;> cases b <;> simp [AllocateAndBeginCommandBuffer, h]

theorem Stall_buffers_success (r : Renderer) (o : VkOracles)
    (h1 : ¬o.submitOk = false) (h2 : ¬o.waitIdleOk = false) :
    (Stall r o).1.buffers = r.buffers.map
      (fun b =>
        { b with internalOffset := 0, boundThisFrame := false, prevDataLength := 0 }) := by
  unfold Stall
  rw [if_neg h1, if_neg h2]
  simp [AllocateAndBegin_buffers, EndPass_buffers]

theorem Stall_buffers_fail (r : Renderer) (o : VkOracles)
    (h : o.submitOk = false ∨ o.waitIdleOk = false) :
    (Stall r o).1.buffers = r.buffers := by
  unfold Stall
  by_cases h1 : o.submitOk = false
  · rw [if_pos h1, EndPass_buffers]
  · rw [if_neg h1]
    rcases h with h | h2
    · exact absurd h h1
    · rw [if_pos h2, EndPass_buffers]

theorem Stall_getElem_offset (r : Renderer) (o : VkOracles) (i : Nat)
    (buf : VulkanBuffer) (hb : r.buffers[i]? = some buf)
    (hoff : buf.internalOffset = 0) :
    ∃ b1, (Stall r o).1.buffers[i]? = some b1 ∧ b1.internalOffset = 0 ∧
      i < (Stall r o).1.buffers.length := by
  have hlen := index_lt_of_getElem?_eq_some hb
  by_cases h1 : o.submitOk = false
  · rw [Stall_buffers_fail r o (Or.inl h1)]
    exact ⟨buf, hb, hoff, hlen⟩
  · by_cases h2 : o.waitIdleOk = false
    · rw [Stall_buffers_fail r o (Or.inr h2)]
      exact ⟨buf, hb, hoff, hlen⟩
    · rw [Stall_buffers_success r o h1 h2]
      exact ⟨{ buf with internalOffset := 0, boundThisFrame := false, prevDataLength := 0 },
        by rw [List.getElem?_map, hb]; rfl, rfl,
        by simpa using hlen⟩

/-- C10 (amended) — Index-buffer write/read round trip: for every buffer
whose write cursor is 0 and every in-range offset and length,
VULKAN_SetIndexBufferData followed by VULKAN_GetIndexBufferData at the same
offset yields exactly the written bytes, PROVIDED the call does not take the
bound-this-frame DISCARD path (which advances the cursor away from 0, so the
read at the raw offset sees stale bytes — see the counterexample); the
OVERWRITE-stall and unbound paths leave the cursor at 0 and round-trip for
any oracle outcomes. -/
theorem c10_roundtrip (r : Renderer) (i : Nat) (buf : VulkanBuffer)
    (offsetInBytes : Nat) (data : List Nat) (options : SetDataOptions)
    (o : VkOracles) (hb : r.buffers[i]? = some buf)
    (hoff : buf.internalOffset = 0)
    (hnd : ¬(buf.boundThisFrame = true ∧ options = SetDataOptions.discard))
    (hrange : offsetInBytes + data.length ≤ buf.size) :
    VULKAN_GetIndexBufferData
      (VULKAN_SetIndexBufferData r i offsetInBytes data data.length options
          o).1 i offsetInBytes data.length = data.map some := by
  have hlen := index_lt_of_getElem?_eq_some hb
  unfold VULKAN_SetIndexBufferData
  by_cases hbound : buf.boundThisFrame = true
  · cases options with
    | discard => exact absurd ⟨hbound, rfl⟩ hnd
    | none =>
      obtain ⟨b1, hb1, hb1off, hb1len⟩ := Stall_getElem_offset r o i buf hb hoff
      simp only [SetBufferData, hb, hbound, if_true, hb1, Option.getD_some]
      exact getAfterWrite _ i _ offsetInBytes data _ hb1len hb1off
    | noOverwrite =>
      simp only [SetBufferData, hb, hbound, if_true]
      exact getAfterWrite r i buf offsetInBytes data [] hlen hoff
  · simp only [SetBufferData, hb]
    rw [if_neg hbound]
    exact getAfterWrite r i buf offsetInBytes data [] hlen hoff

/-- Witness for `c10_roundtrip`: writing bytes 1, 2, 3 at offset 0 of a
fresh (unbound) 256-byte buffer and reading 3 bytes back yields 1, 2, 3. -/
theorem c10_roundtrip_witness :
    VULKAN_GetIndexBufferData
      (VULKAN_SetIndexBufferData c7Renderer 0 0 [1, 2, 3] 3
          SetDataOptions.noOverwrite allOk).1 0 0 3 = [1, 2, 3].map some :=
  c10_roundtrip c7Renderer 0 (CreateBuffer 256).1 0 [1, 2, 3]
    SetDataOptions.noOverwrite allOk rfl rfl (by decide) (by decide)

theorem EndPass_no_sync (r : Renderer) (b : Bool) :
    (EndPass r b).2.countP isQueueSubmit = 0 ∧
    (EndPass r b).2.countP isWaitIdle = 0 ∧
    (EndPass r b).2.countP isMemWrite = 0 := by
  by_cases h : r.renderPassInProgress = true ∧ 0 < r.commandBufferCount <;>
    cases b <;> simp [EndPass, h, isQueueSubmit, isWaitIdle, isMemWrite]

theorem AllocateAndBegin_no_sync (r : Renderer) (a b : Bool) :
    (AllocateAndBeginCommandBuffer r a b).2.1.countP isQueueSubmit = 0 ∧
    (AllocateAndBeginCommandBuffer r a b).2.1.countP isWaitIdle = 0 ∧
    (AllocateAndBeginCommandBuffer r a b).2.1.countP isMemWrite = 0 := by
  by_cases h : r.commandBufferCount + 1 > r.commandBufferCapacity <;>
    cases a <;> cases b <;>
    simp [AllocateAndBeginCommandBuffer, h, isQueueSubmit, isWaitIdle,
      isMemWrite]

theorem Stall_trace_success (r : Renderer) (o : VkOracles)
    (h1 : ¬o.submitOk = false) (h2 : ¬o.waitIdleOk = false) :
    (Stall r o).2.countP isQueueSubmit = 1 ∧
    (Stall r o).2.countP isWaitIdle = 1 ∧
    (Stall r o).2.countP isMemWrite = 0 := by
  unfold Stall
  rw [if_neg h1, if_neg h2]
  simp only [List.countP_append]
  have he := EndPass_no_sync r o.endOk
  have ha := AllocateAndBegin_no_sync
    { (EndPass r o.endOk).1 with commandBufferCount := 0 } o.allocOk o.beginOk
  refine ⟨?_, ?_, ?_⟩ <;>
    simp [he.1, he.2.1, he.2.2, ha.1, ha.2.1, ha.2.2, isQueueSubmit,
      isWaitIdle, isMemWrite]

theorem Stall_resets (r : Renderer) (o : VkOracles)
    (h1 : ¬o.submitOk = false) (h2 : ¬o.waitIdleOk = false) :
    ∀ b ∈ (Stall r o).1.buffers,
      b.internalOffset = 0 ∧ b.boundThisFrame = false ∧
      b.prevDataLength = 0 := by
  rw [Stall_buffers_success r o h1 h2]
  intro b hb
  rcases List.mem_map.mp hb with ⟨b0, _, rfl⟩
  exact ⟨rfl, rfl, rfl⟩

theorem setBufferDataWrite_trace (r : Renderer) (i : Nat)
    (buf : VulkanBuffer) (off : Nat) (data : List Nat) (len : Nat)
    (ev : List VkEvent) :
    ∃ post, (setBufferDataWrite r i buf off data len ev).2 = ev ++ post ∧
      post.countP isQueueSubmit = 0 ∧ post.countP isWaitIdle = 0 ∧
      0 < post.countP isMemWrite := by
  simp only [setBufferDataWrite]
  by_cases h : len < buf.size ∧ buf.prevInternalOffset ≠ buf.internalOffset
  · rw [if_pos h]
    refine ⟨[VkEvent.memWrite buf.internalOffset buf.size,
      VkEvent.memWrite (buf.internalOffset + off) len], by simp, ?_, ?_, ?_⟩ <;>
      simp [isQueueSubmit, isWaitIdle, isMemWrite]
  · rw [if_neg h]
    refine ⟨[VkEvent.memWrite (buf.internalOffset + off) len], by simp,
      ?_, ?_, ?_⟩ <;>
      simp [isQueueSubmit, isWaitIdle, isMemWrite]

/-- C4 — Overwrite stall correctness: a `Stall` whose submit and idle-wait
succeed resets `internalOffset`, `boundThisFrame` and `prevDataLength` on
every tracked buffer; a SetBufferData with FNA3D_SETDATAOPTIONS_NONE on a
buffer bound this frame produces a trace that splits into a prefix with
exactly one queue submit and one queue-idle wait and no memory mutation,
followed by a suffix holding the buffer-memory writes and no further
submit or idle wait — i.e. exactly one stall happens before the buffer's
memory is mutated; and with `boundThisFrame` false no submit or idle wait
occurs at all. -/
theorem c4_overwrite_stall (r : Renderer) (i : Nat) (buf : VulkanBuffer)
    (off : Nat) (data : List Nat) (len : Nat) (o : VkOracles)
    (hb : r.buffers[i]? = some buf)
    (hs : o.submitOk = true) (hw : o.waitIdleOk = true) :
    (∀ b ∈ (Stall r o).1.buffers,
      b.internalOffset = 0 ∧ b.boundThisFrame = false ∧
      b.prevDataLength = 0) ∧
    (buf.boundThisFrame = true →
      ∃ pre post,
        (SetBufferData r i off data len SetDataOptions.none o).2 =
          pre ++ post ∧
        pre.countP isQueueSubmit = 1 ∧ pre.countP isWaitIdle = 1 ∧
        pre.countP isMemWrite = 0 ∧
        post.countP isQueueSubmit = 0 ∧ post.countP isWaitIdle = 0 ∧
        0 < post.countP isMemWrite) ∧
    (buf.boundThisFrame = false →
      (SetBufferData r i off data len SetDataOptions.none o).2.countP
          isQueueSubmit = 0 ∧
      (SetBufferData r i off data len SetDataOptions.none o).2.countP
          isWaitIdle = 0) := by
  have h1 : ¬o.submitOk = false := by simp [hs]
  have h2 : ¬o.waitIdleOk = false := by simp [hw]
  refine ⟨Stall_resets r o h1 h2, fun hbound => ?_, fun hbound => ?_⟩
  · have hred := setBufferDataWrite_trace (Stall r o).1 i
      { ((Stall r o).1.buffers[i]?).getD buf with boundThisFrame := true }
      off data len
      ((if r.debugMode = true then [VkEvent.logWarn] else []) ++ (Stall r o).2)
    obtain ⟨post, hpost, hc1, hc2, hc3⟩ := hred
    refine ⟨(if r.debugMode = true then [VkEvent.logWarn] else []) ++
      (Stall r o).2, post, ?_, ?_, ?_, ?_, hc1, hc2, hc3⟩
    · simp only [SetBufferData, hb, hbound, if_true]
      exact hpost
    · have hst := Stall_trace_success r o h1 h2
      cases hd : r.debugMode <;>
        simp [List.countP_append, hst.1, isQueueSubmit]
    · have hst := Stall_trace_success r o h1 h2
      cases hd : r.debugMode <;>
        simp [List.countP_append, hst.2.1, isWaitIdle]
    · have hst := Stall_trace_success r o h1 h2
      cases hd : r.debugMode <;>
        simp [List.countP_append, hst.2.2, isMemWrite]
  · have hred := setBufferDataWrite_trace r i buf off data len []
    obtain ⟨post, hpost, hc1, hc2, _⟩ := hred
    have htr : (SetBufferData r i off data len SetDataOptions.none o).2 =
        post := by
      simp only [SetBufferData, hb]
      rw [if_neg (by simp [hbound])]
      simpa using hpost
    rw [htr]
    exact ⟨hc1, hc2⟩

/-- Witness for `c4_overwrite_stall`: an OVERWRITE write on a fresh, unbound
buffer performs no submit and no idle wait. -/
theorem c4_overwrite_stall_witness :
    (SetBufferData c7Renderer 0 0 [1] 1 SetDataOptions.none allOk).2.countP
        isQueueSubmit = 0 ∧
    (SetBufferData c7Renderer 0 0 [1] 1 SetDataOptions.none allOk).2.countP
        isWaitIdle = 0 :=
  (c4_overwrite_stall c7Renderer 0 (CreateBuffer 256).1 0 [1] 1 allOk
    rfl rfl rfl).2.2 rfl

theorem EndPass_frameInProgress (r : Renderer) (b : Bool) :
    (EndPass r b).1.frameInProgress = r.frameInProgress := by
  by_cases h : r.renderPassInProgress = true ∧ 0 < r.commandBufferCount <;>
    simp [EndPass, h]

theorem EndPass_no_present (r : Renderer) (b : Bool) :
    VkEvent.vkQueuePresent ∉ (EndPass r b).2 := by
  by_cases h : r.renderPassInProgress = true ∧ 0 < r.commandBufferCount <;>
    cases b <;> simp [EndPass, h]

theorem AllocateAndBegin_frameInProgress (r : Renderer) (a b : Bool) :
    (AllocateAndBeginCommandBuffer r a b).1.frameInProgress =
      r.frameInProgress := by
  by_cases h : r.commandBufferCount + 1 > r.commandBufferCapacity <;>
    cases a <;> cases b <;> simp [AllocateAndBeginCommandBuffer, h]

theorem AllocateAndBegin_no_present (r : Renderer) (a b : Bool) :
    VkEvent.vkQueuePresent ∉ (AllocateAndBeginCommandBuffer r a b).2.1 := by
  by_cases h : r.commandBufferCount + 1 > r.commandBufferCapacity <;>
    cases a <;> cases b <;> simp [AllocateAndBeginCommandBuffer, h]

theorem BlitFramebuffer_frameInProgress (r : Renderer) (a b c : Bool) :
    (BlitFramebuffer r a b c).1.frameInProgress = r.frameInProgress := by
  cases c <;>
    simp [BlitFramebuffer, AllocateAndBegin_frameInProgress]

theorem BlitFramebuffer_no_present (r : Renderer) (a b c : Bool) :
    VkEvent.vkQueuePresent ∉ (BlitFramebuffer r a b c).2.1 := by
  have h := AllocateAndBegin_no_present r a b
  cases c <;> simp [BlitFramebuffer] <;> exact h

/-- C8 — Steady-state transient failures abandon the frame rather than
crash.  (a) When `vkAcquireNextImageKHR` fails, VULKAN_BeginFrame logs the
result and returns with the renderer unchanged — in particular without
marking the frame in progress.  (b) In VULKAN_SwapBuffers mid-frame (no
pending clears), a `vkQueueSubmit` failure is logged and the function
returns before presenting.  (c) A `vkQueuePresentKHR` failure is logged and
the function still returns control with the frame no longer marked in
progress. -/
theorem c8_transient_failures (r : Renderer) (o : VkOracles)
    (hframe : r.frameInProgress = false) (hacq : o.acquireOk = false)
    (r2 : Renderer) (o2 : VkOracles) (hframe2 : r2.frameInProgress = true)
    (hclear : r2.shouldClearColor = false ∧ r2.shouldClearDepth = false ∧
      r2.shouldClearStencil = false) :
    ((VULKAN_BeginFrame r o).1 = r ∧
      (VULKAN_BeginFrame r o).1.frameInProgress = false ∧
      VkEvent.logError "vkAcquireNextImageKHR" ∈ (VULKAN_BeginFrame r o).2) ∧
    (o2.submitOk = false →
      VkEvent.logError "vkQueueSubmit" ∈ (VULKAN_SwapBuffers r2 o2).2 ∧
      VkEvent.vkQueuePresent ∉ (VULKAN_SwapBuffers r2 o2).2 ∧
      (VULKAN_SwapBuffers r2 o2).1.frameInProgress = true) ∧
    (o2.submitOk = true → o2.presentOk = false →
      VkEvent.logError "vkQueuePresentKHR" ∈ (VULKAN_SwapBuffers r2 o2).2 ∧
      (VULKAN_SwapBuffers r2 o2).1.frameInProgress = false) := by
  have hbf : VULKAN_BeginFrame r2 o2 = (r2, []) := by
    simp [VULKAN_BeginFrame, hframe2]
  have hsrt : VULKAN_SetRenderTargetsNull r2 o2 =
      ({ r2 with needNewRenderPass := true }, []) := by
    simp [VULKAN_SetRenderTargetsNull, hclear.1, hclear.2.1, hclear.2.2]
  refine ⟨?_, fun hsub => ?_, fun hsub hpres => ?_⟩
  · rw [VULKAN_BeginFrame, if_neg (by simp [hframe])]
    rw [if_neg (by simp [hacq])]
    exact ⟨rfl, hframe, by simp⟩
  · simp only [VULKAN_SwapBuffers, hbf, hsrt]
    rw [if_pos hsub]
    refine ⟨by simp, ?_, ?_⟩
    · intro hmem
      simp only [List.append_assoc, List.mem_append, List.mem_cons,
        List.mem_singleton, List.not_mem_nil, or_false, false_or] at hmem
      rcases hmem with h | h | h
      · exact EndPass_no_present _ o2.endOk h
      · exact BlitFramebuffer_no_present _ o2.allocOk o2.beginOk o2.endOk h
      · rcases h with h | h | h <;> cases h
    · rw [BlitFramebuffer_frameInProgress, EndPass_frameInProgress]
      exact hframe2
  · simp only [VULKAN_SwapBuffers, hbf, hsrt]
    rw [if_neg (by simp [hsub]), if_pos hpres]
    exact ⟨by simp, by simp⟩

/-- Witness for `c8_transient_failures`: a failed acquire on an idle
renderer leaves it unchanged, and failed submit/present during a frame in
progress are logged as stated. -/
theorem c8_transient_failures_witness :
    ((VULKAN_BeginFrame rendererBase
        ⟨true, true, true, true, true, true, false, 0, true⟩).1 =
      rendererBase ∧
      (VULKAN_BeginFrame rendererBase
        ⟨true, true, true, true, true, true, false, 0, true⟩).1.frameInProgress
        = false ∧
      VkEvent.logError "vkAcquireNextImageKHR" ∈
        (VULKAN_BeginFrame rendererBase
          ⟨true, true, true, true, true, true, false, 0, true⟩).2) ∧
    (VkEvent.logError "vkQueueSubmit" ∈
      (VULKAN_SwapBuffers { rendererBase with frameInProgress := true }
        ⟨false, true, true, true, true, true, true, 0, true⟩).2 ∧
      VkEvent.vkQueuePresent ∉
        (VULKAN_SwapBuffers { rendererBase with frameInProgress := true }
          ⟨false, true, true, true, true, true, true, 0, true⟩).2 ∧
      (VULKAN_SwapBuffers { rendererBase with frameInProgress := true }
        ⟨false, true, true, true, true, true, true, 0, true⟩).1.frameInProgress
        = true) := by
  have h1 := c8_transient_failures rendererBase
    ⟨true, true, true, true, true, true, false, 0, true⟩
    rfl rfl { rendererBase with frameInProgress := true }
    ⟨false, true, true, true, true, true, true, 0, true⟩
    rfl ⟨rfl, rfl, rfl⟩
  exact ⟨h1.1, h1.2.1 rfl⟩

end FNA3D
